/-
  Verification of the Customer-Xperience-Anomaly-Detector backend.

  Shallow embedding of the anomaly-scoring engine:
  - Backend/src/predict.py   (batch scoring: thresholds, normalization, ensemble)
  - Backend/src/service.py   (serving path: score_records, load_model_artifacts, reload)
  - Backend/src/train.py     (threshold calibration via np.percentile)
  - Backend/src/features.py  (schema validation, one-hot encoding of categoricals)

  Real numbers of the source are modelled as rationals; pandas tables are
  modelled by their column lists where only the schema matters; opaque
  artifact payloads (pickled sklearn objects) are modelled as Nat ids.
-/
import Mathlib

namespace CXAD

/-! ## Scoring numerics (Backend/src/predict.py lines 110-154, service.py lines 164-212) -/

/-- The epsilon guard `1e-10` added to the normalization denominator in
`predict.py` line 142/147 and `service.py` line 195/200. -/
def EPS : ℚ := 1 / 10000000000

/-- `np.clip(x, 0, 1)`: values below 0 become 0, values above 1 become 1. -/
def npClip01 (x : ℚ) : ℚ := min (max x 0) 1

/-- Min-max normalization of a raw score against training-time stats, with the
epsilon-guarded denominator and clip to [0,1], exactly as in
`predict.py` lines 142-148 and `service.py` lines 195-201:
`np.clip((s - min) / (max - min + 1e-10), 0, 1)`. -/
def normalizeScore (s statsMin statsMax : ℚ) : ℚ :=
  npClip01 ((s - statsMin) / (statsMax - statsMin + EPS))

/-- Per-model metadata as persisted by `train.py` lines 121-135 (the fields the
scoring paths read: calibrated threshold and training score stats). -/
structure ModelMeta where
  threshold : ℚ
  statsMin : ℚ
  statsMax : ℚ
  deriving DecidableEq

/-- One output row of `predict_batch` (predict.py lines 110-168), per record. -/
structure BatchRow where
  iforest_score : ℚ
  iforest_anomaly : Bool
  lof_score : ℚ
  lof_anomaly : Bool
  ensemble_score : ℚ
  ensemble_anomaly : Bool
  deriving DecidableEq

/-- The per-record computation of `predict_batch` (predict.py lines 110-168):
flags are `scores >= threshold` (lines 116, 127), normalized scores use
training stats (lines 140-148), the ensemble score is the weighted sum
(line 151) and the ensemble flag is `np.logical_or` of the two flags
(line 154). -/
def predict_batch_row (ifMeta lofMeta : ModelMeta) (wIf wLof : ℚ)
    (sIf sLof : ℚ) : BatchRow :=
  let ifA := decide (sIf ≥ ifMeta.threshold)
  let lofA := decide (sLof ≥ lofMeta.threshold)
  let ifN := normalizeScore sIf ifMeta.statsMin ifMeta.statsMax
  let lofN := normalizeScore sLof lofMeta.statsMin lofMeta.statsMax
  { iforest_score := sIf
    iforest_anomaly := ifA
    lof_score := sLof
    lof_anomaly := lofA
    ensemble_score := wIf * ifN + wLof * lofN
    ensemble_anomaly := ifA || lofA }

/-- One per-record result of the serving path `score_records`
(service.py lines 164-212); anomaly flags are 0/1 integers
(`.astype(int)`, lines 169, 179, 211). -/
structure ServeRow where
  iforest_score : ℚ
  iforest_anomaly : ℕ
  lof_score : ℚ
  lof_anomaly : ℕ
  ensemble_score : ℚ
  ensemble_anomaly : ℕ
  deriving DecidableEq

/-- The per-record computation of the serving path when `model=both`
(service.py lines 164-212): per-model flags `(scores >= threshold).astype(int)`
(lines 169, 179), normalized scores against training stats (lines 192-201),
weighted-sum ensemble score (line 204), and ensemble flag
`np.logical_or(iforest_anomalies, lof_anomalies).astype(int)` (lines 208-211). -/
def score_records_row (ifMeta lofMeta : ModelMeta) (wIf wLof : ℚ)
    (sIf sLof : ℚ) : ServeRow :=
  let ifA : ℕ := if sIf ≥ ifMeta.threshold then 1 else 0
  let lofA : ℕ := if sLof ≥ lofMeta.threshold then 1 else 0
  let ifN := normalizeScore sIf ifMeta.statsMin ifMeta.statsMax
  let lofN := normalizeScore sLof lofMeta.statsMin lofMeta.statsMax
  { iforest_score := sIf
    iforest_anomaly := ifA
    lof_score := sLof
    lof_anomaly := lofA
    ensemble_score := wIf * ifN + wLof * lofN
    ensemble_anomaly := if ifA ≠ 0 ∨ lofA ≠ 0 then 1 else 0 }

/-! ## Threshold calibration (Backend/src/train.py line 113) -/

/-- `numpy.max` of an array (`train_scores.max()`, train.py line 130);
0 for the empty array stands for the error numpy raises there. -/
def npMax (l : List ℚ) : ℚ :=
  match l with
  | [] => 0
  | a :: rest => rest.foldl max a

/-- `numpy.min` of an array (`train_scores.min()`, train.py line 131). -/
def npMin (l : List ℚ) : ℚ :=
  match l with
  | [] => 0
  | a :: rest => rest.foldl min a

/-- `np.percentile(train_scores, p)` with the default linear interpolation
method (train.py line 113): sort the data, take the fractional rank
`p/100 * (n-1)` and linearly interpolate between the neighbouring order
statistics. -/
def npPercentile (l : List ℚ) (p : ℚ) : ℚ :=
  let sorted := List.insertionSort (· ≤ ·) l
  let n := l.length
  let rank := p * ((n : ℚ) - 1) / 100
  let i := (⌊rank⌋).toNat
  let frac := rank - (i : ℚ)
  let lo := sorted.getD i 0
  let hi := sorted.getD (i + 1) lo
  lo + frac * (hi - lo)

/-! ## Feature schema handling (Backend/src/features.py) -/

/-- `validate_schema` (features.py lines 102-124): the required columns are
numeric + categorical + identifier columns; raises a ValueError carrying the
missing set when any is absent from the table, returns True otherwise.
The table is modelled by its column list. -/
def validate_schema (numeric categorical identifier_columns : List String)
    (cols : List String) : Except (List String) Bool :=
  let required := numeric ++ categorical ++ identifier_columns
  let missing := (required.filter (fun c => ¬ c ∈ cols)).dedup
  if missing = [] then .ok true else .error missing

/-- `prepare_features` (features.py lines 64-99) restricted to the schema:
the feature table keeps exactly the columns that are neither identifier nor
drop columns. Missing expected columns only produce a log warning (and only
when `is_training`); no error is raised here. -/
def prepare_features (identifier_columns drop_columns : List String)
    (cols : List String) : List String :=
  cols.filter (fun c => ¬ c ∈ identifier_columns ∧ ¬ c ∈ drop_columns)

/-- One-hot encoding of a single categorical value against the vocabulary
observed at fit time, as performed by the fitted
`OneHotEncoder(handle_unknown=categorical_unknown, sparse_output=False)`
built in `build_preprocessor` (features.py line 49): with
`handle_unknown="ignore"` an unseen value yields the all-zero row, otherwise
the encoder raises on an unseen value; a known value yields its indicator. -/
def oneHotEncode (handle_unknown : String) (vocab : List String)
    (v : String) : Except String (List ℕ) :=
  if ¬ handle_unknown = "ignore" ∧ ¬ v ∈ vocab then
    .error "Found unknown categories during transform"
  else
    .ok (vocab.map (fun c => if c = v then 1 else 0))

/-- Modelled from the spec: the training configuration file
(`configs/config.local.yaml`, read by `load_config` in train.py lines 25-42)
is not part of the repository; it supplies `preprocessing.categorical_unknown`,
which train.py line 78 passes to `build_preprocessor`. The spec requires that
unknown categories at transform time never raise, i.e. the `ignore` handling
(which is also the default value of the `categorical_unknown` parameter of
`build_preprocessor`, features.py line 21). -/
def configCategoricalUnknown : String := "ignore"

/-! ## Serving error classification (Backend/src/service.py lines 103-157, 297-347)

`score_records` raises `HTTPException` with status 503 (models not loaded /
model unavailable) or 400 (invalid model selection); any other exception that
escapes it — in particular a failure inside `preprocessor.transform` — is
caught by the generic handler of `score_interactions` (lines 343-347) and
re-raised as an `HTTPException` with status 500. -/

/-- Outcome classification of the `/score` endpoint. -/
inductive ServeOutcome where
  | ok
  | clientError (status : ℕ)
  | unavailable
  | internalError
  deriving DecidableEq

/-- `sklearn`'s fitted `ColumnTransformer.transform` raises when any column
the transformer was fitted on is absent from the input frame; otherwise it
succeeds. Modelled at the schema level. -/
def transform_check (fittedCols : List String) (cols : List String) :
    Except String Unit :=
  if fittedCols.all (fun c => c ∈ cols) then .ok ()
  else .error "columns are missing"

/-- The schema-relevant behaviour of the `/score` endpoint
(`score_interactions` wrapping `score_records`, service.py lines 103-157 and
297-347): 503 when no models are loaded (line 116), 400 on an invalid model
selection (lines 124-128), then `prepare_features` with `is_training=False`
(line 153, no schema validation) followed by `preprocessor.transform`
(line 157); a transform failure propagates as a generic exception and becomes
a 500 internal error (lines 345-347). -/
def score_endpoint_schema (modelsLoaded : Bool) (model_selection : String)
    (identifier_columns drop_columns fittedCols : List String)
    (cols : List String) : ServeOutcome :=
  if ¬ modelsLoaded then .unavailable
  else if ¬ model_selection ∈ ["iforest", "lof", "both"] then .clientError 400
  else
    let featureCols := prepare_features identifier_columns drop_columns cols
    match transform_check fittedCols featureCols with
    | .error _ => .internalError
    | .ok _ => .ok

/-- The schema-relevant behaviour of batch training (`train_models`,
train.py lines 55-64): `validate_schema` runs on the raw table before
`prepare_features` and before the preprocessor is fitted, so a missing
required column fails the run fast with the missing set named. -/
def train_schema_check (numeric categorical identifier_columns : List String)
    (cols : List String) : Except (List String) Bool :=
  validate_schema numeric categorical identifier_columns cols

/-! ## The model registry (Backend/src/service.py lines 56-100, 350-359)

The serving state is the module-level dict `_model_state` with keys
`preprocessor`, `models`, `metadata`, `loaded_at`, `config`.
`load_model_artifacts` (lines 66-100) mutates this dict in place, one
assignment at a time; `reload_model` (lines 350-359) just calls it.
Artifact payloads (pickles) are opaque and modelled as Nat ids; a missing or
malformed artifact file makes the corresponding `joblib.load` raise. -/

/-- The serving state `_model_state` (service.py lines 57-63). The `models`
and `metadata` dicts are association lists. -/
structure ModelState where
  preprocessor : Option ℕ
  models : List (String × ℕ)
  metadata : List (String × ℕ)
  loaded_at : Option ℕ
  config : Option ℕ
  deriving DecidableEq

/-- The initial state (service.py lines 57-63): nothing loaded. -/
def initialState : ModelState :=
  { preprocessor := none, models := [], metadata := [],
    loaded_at := none, config := none }

/-- Python dict assignment `d[k] = v` on an association list. -/
def dictSet (d : List (String × ℕ)) (k : String) (v : ℕ) :
    List (String × ℕ) :=
  match d with
  | [] => [(k, v)]
  | (k2, v2) :: rest =>
    if k2 = k then (k, v) :: rest else (k2, v2) :: dictSet rest k v

/-- The artifact files on disk that a load reads: the shared preprocessor
file and, per model name, a model file and a metadata file. `none` means the
file is missing (or malformed), so `joblib.load` raises. -/
structure ArtifactSource where
  preprocessorFile : Option ℕ
  modelFiles : List (String × ℕ)
  metaFiles : List (String × ℕ)
  deriving DecidableEq

/-- The per-model loop of `load_model_artifacts` (service.py lines 82-91),
followed by the `loaded_at` and `config` assignments (lines 93-94).
Returns the list of intermediate states produced by each successive
assignment to `_model_state` (the states a concurrent reader could observe),
and whether the load ran to completion.  An exception raised by `joblib.load`
aborts the function, leaving all assignments made so far in place. -/
def loadModelsTrace (src : ArtifactSource) (names : List String)
    (t cfgVal : ℕ) (s : ModelState) : List ModelState × Bool :=
  match names with
  | [] =>
    let s1 := { s with loaded_at := some t }
    let s2 := { s1 with config := some cfgVal }
    ([s1, s2], true)
  | n :: rest =>
    match (src.modelFiles.lookup n) with
    | none => ([], false)
    | some m =>
      let s1 := { s with models := dictSet s.models n m }
      match (src.metaFiles.lookup n) with
      | none => ([s1], false)
      | some d =>
        let s2 := { s1 with metadata := dictSet s1.metadata n d }
        let res := loadModelsTrace src rest t cfgVal s2
        (s1 :: s2 :: res.1, res.2)

/-- `load_model_artifacts` (service.py lines 66-100), also the body of
`reload_model` (lines 350-359): load the preprocessor into the live state
(line 76), then each configured model and its metadata (lines 82-91), then
`loaded_at` and `config` (lines 93-94). Result: the trace of intermediate
states after each assignment, plus a completion flag. -/
def load_model_artifacts (src : ArtifactSource) (names : List String)
    (t cfgVal : ℕ) (s : ModelState) : List ModelState × Bool :=
  match src.preprocessorFile with
  | none => ([], false)
  | some p =>
    let s1 := { s with preprocessor := some p }
    let res := loadModelsTrace src names t cfgVal s1
    (s1 :: res.1, res.2)

/-- The state of the registry after `load_model_artifacts` returns or raises:
the last state of the trace (the original state when the very first
`joblib.load` raised). -/
def stateAfterLoad (src : ArtifactSource) (names : List String)
    (t cfgVal : ℕ) (s : ModelState) : ModelState :=
  ((load_model_artifacts src names t cfgVal s).1).getLastD s

/-- What a `Score` call reads from the registry when serving with both
models (service.py lines 156-182): the preprocessor and, per model, the model
and its metadata. Two states with the same view are indistinguishable to a
Score call. -/
def snapshotView (s : ModelState) :
    Option ℕ × List (Option ℕ) × List (Option ℕ) :=
  (s.preprocessor,
   ["iforest", "lof"].map (fun n => s.models.lookup n),
   ["iforest", "lof"].map (fun n => s.metadata.lookup n))

/-! ## Batch prediction CLI (Backend/src/predict.py lines 23-101, 201-266) -/

/-- The artifacts dict returned by `load_artifacts` (predict.py lines 23-73):
the shared preprocessor plus the loaded models and their metadata. -/
structure Artifacts where
  preprocessor : ℕ
  models : List (String × ℕ)
  metadata : List (String × ℕ)
  deriving DecidableEq

/-- The per-name loop of `load_artifacts` (predict.py lines 58-65): for each
name, load the model file and then the metadata file; a missing file makes
`joblib.load` raise, aborting the loop. -/
def loadModelMeta (src : ArtifactSource) :
    List String → Except String (List (String × ℕ) × List (String × ℕ))
  | [] => .ok ([], [])
  | n :: rest =>
    match src.modelFiles.lookup n with
    | none => .error "model artifact missing"
    | some m =>
      match src.metaFiles.lookup n with
      | none => .error "metadata artifact missing"
      | some d =>
        match loadModelMeta src rest with
        | .error e => .error e
        | .ok (ms, ds) => .ok ((n, m) :: ms, (n, d) :: ds)

/-- `load_artifacts` (predict.py lines 23-73): loads the shared preprocessor,
then — when `model_name` is given — validates it against the configured model
names and loads only that model, otherwise loads every configured model. -/
def load_artifacts (cfgModels : List String) (src : ArtifactSource)
    (model_name : Option String) : Except String Artifacts :=
  match src.preprocessorFile with
  | none => .error "preprocessor artifact missing"
  | some p =>
    let chosen : Except String (List String) :=
      match model_name with
      | some n =>
        if n ∈ cfgModels then .ok [n] else .error "Invalid model name"
      | none => .ok cfgModels
    match chosen with
    | .error e => .error e
    | .ok models_to_load =>
      match loadModelMeta src models_to_load with
      | .error e => .error e
      | .ok (ms, ds) =>
        .ok { preprocessor := p, models := ms, metadata := ds }

/-- `predict_batch` (predict.py lines 76-176) at the level relevant to model
availability: after loading the inference data it checks that both required
models `iforest` and `lof` are among the loaded artifacts (lines 96-101) and
raises a ValueError naming the missing ones before any feature
transformation or scoring; only then does it score every record with both
models and build the result rows. -/
def predict_batch (arts : Artifacts) (ifMeta lofMeta : ModelMeta)
    (wIf wLof : ℚ) (recs : List (ℚ × ℚ)) : Except String (List BatchRow) :=
  let available := arts.models.map Prod.fst
  if "iforest" ∈ available ∧ "lof" ∈ available then
    .ok (recs.map (fun r => predict_batch_row ifMeta lofMeta wIf wLof r.1 r.2))
  else
    .error "Required models not available"

/-- The artifact-selection logic of the CLI `main` (predict.py lines
249-254) composed with `load_artifacts` and the availability check of
`predict_batch`: `--model ensemble` loads all configured models, any other
value loads only that model. -/
def predict_main (cfgModels : List String) (src : ArtifactSource)
    (argModel : String) (ifMeta lofMeta : ModelMeta) (wIf wLof : ℚ)
    (recs : List (ℚ × ℚ)) : Except String (List BatchRow) :=
  let model_name := if argModel = "ensemble" then none else some argModel
  match load_artifacts cfgModels src model_name with
  | .error e => .error e
  | .ok arts => predict_batch arts ifMeta lofMeta wIf wLof recs

/-! ## Helper lemmas -/

theorem npClip01_nonneg (x : ℚ) : 0 ≤ npClip01 x :=
  le_min (le_max_right x 0) zero_le_one

theorem npClip01_le_one (x : ℚ) : npClip01 x ≤ 1 :=
  min_le_right _ _

theorem map_indicator_of_not_mem (vocab : List String) (v : String)
    (hv : ¬ v ∈ vocab) :
    vocab.map (fun c => if c = v then (1 : ℕ) else 0)
      = List.replicate vocab.length 0 := by
  induction vocab with
  | nil => rfl
  | cons a t ih =>
    simp only [List.mem_cons, not_or] at hv
    have ha : ¬ a = v := fun h => hv.1 h.symm
    simp [List.replicate_succ, ha, ih hv.2]

/-! ## Claims about the scoring numerics -/

/-- C8: for every scored record and every single model, the per-model anomaly
flag holds exactly when the raw anomaly score is at least that model's
calibrated threshold, in both the batch-predict path and the serving path. -/
theorem c8_flag_iff_threshold (ifMeta lofMeta : ModelMeta)
    (wIf wLof sIf sLof : ℚ) :
    ((predict_batch_row ifMeta lofMeta wIf wLof sIf sLof).iforest_anomaly = true
        ↔ sIf ≥ ifMeta.threshold)
    ∧ ((predict_batch_row ifMeta lofMeta wIf wLof sIf sLof).lof_anomaly = true
        ↔ sLof ≥ lofMeta.threshold)
    ∧ ((score_records_row ifMeta lofMeta wIf wLof sIf sLof).iforest_anomaly = 1
        ↔ sIf ≥ ifMeta.threshold)
    ∧ ((score_records_row ifMeta lofMeta wIf wLof sIf sLof).lof_anomaly = 1
        ↔ sLof ≥ lofMeta.threshold) := by
  refine ⟨?_, ?_, ?_, ?_⟩
  · simp [predict_batch_row]
  · simp [predict_batch_row]
  · simp only [score_records_row]
    split <;> simp_all
  · simp only [score_records_row]
    split <;> simp_all

/-- C5: the ensemble anomaly flag is the logical OR of the two per-model
flags, in the batch-predict path and in the serving path (where flags are the
0/1 integers of the source), for all inputs and hence for all four boolean
combinations; moreover it is not a threshold on the fused ensemble score:
there are records where the record with the strictly larger ensemble score is
not flagged while the record with the smaller score is. -/
theorem c5_ensemble_flag_is_or :
    (∀ ifMeta lofMeta : ModelMeta, ∀ wIf wLof sIf sLof : ℚ,
      (predict_batch_row ifMeta lofMeta wIf wLof sIf sLof).ensemble_anomaly
        = ((predict_batch_row ifMeta lofMeta wIf wLof sIf sLof).iforest_anomaly
            || (predict_batch_row ifMeta lofMeta wIf wLof sIf sLof).lof_anomaly))
    ∧ (∀ ifMeta lofMeta : ModelMeta, ∀ wIf wLof sIf sLof : ℚ,
      (score_records_row ifMeta lofMeta wIf wLof sIf sLof).ensemble_anomaly
        = (if (score_records_row ifMeta lofMeta wIf wLof sIf sLof).iforest_anomaly = 1
              ∨ (score_records_row ifMeta lofMeta wIf wLof sIf sLof).lof_anomaly = 1
            then 1 else 0))
    ∧ (∃ ifMeta lofMeta : ModelMeta, ∃ wIf wLof sA1 sA2 sB1 sB2 : ℚ,
        (predict_batch_row ifMeta lofMeta wIf wLof sB1 sB2).ensemble_score
            < (predict_batch_row ifMeta lofMeta wIf wLof sA1 sA2).ensemble_score
        ∧ (predict_batch_row ifMeta lofMeta wIf wLof sB1 sB2).ensemble_anomaly = true
        ∧ (predict_batch_row ifMeta lofMeta wIf wLof sA1 sA2).ensemble_anomaly = false) := by
  refine ⟨fun _ _ _ _ _ _ => rfl, ?_, ?_⟩
  · intro ifMeta lofMeta wIf wLof sIf sLof
    simp only [score_records_row]
    split_ifs <;> simp_all
  · refine ⟨⟨1/2, 0, 1⟩, ⟨2, 0, 1⟩, 1/2, 1/2, 2/5, 1, 1/2, 0, ?_, ?_, ?_⟩ <;>
      norm_num [predict_batch_row, normalizeScore, npClip01, EPS]

/-- C6: when the two per-model weights are non-negative and sum to 1, the
ensemble score (weighted sum of the min-max-normalized, clipped scores) lies
in [0,1], in both the batch-predict path and the serving path. -/
theorem c6_ensemble_score_in_unit_interval (ifMeta lofMeta : ModelMeta)
    (wIf wLof sIf sLof : ℚ) (hIf : 0 ≤ wIf) (hLof : 0 ≤ wLof)
    (hsum : wIf + wLof = 1) :
    (0 ≤ (predict_batch_row ifMeta lofMeta wIf wLof sIf sLof).ensemble_score
      ∧ (predict_batch_row ifMeta lofMeta wIf wLof sIf sLof).ensemble_score ≤ 1)
    ∧ (0 ≤ (score_records_row ifMeta lofMeta wIf wLof sIf sLof).ensemble_score
      ∧ (score_records_row ifMeta lofMeta wIf wLof sIf sLof).ensemble_score ≤ 1) := by
  have hA0 := npClip01_nonneg
    ((sIf - ifMeta.statsMin) / (ifMeta.statsMax - ifMeta.statsMin + EPS))
  have hA1 := npClip01_le_one
    ((sIf - ifMeta.statsMin) / (ifMeta.statsMax - ifMeta.statsMin + EPS))
  have hB0 := npClip01_nonneg
    ((sLof - lofMeta.statsMin) / (lofMeta.statsMax - lofMeta.statsMin + EPS))
  have hB1 := npClip01_le_one
    ((sLof - lofMeta.statsMin) / (lofMeta.statsMax - lofMeta.statsMin + EPS))
  simp only [predict_batch_row, score_records_row, normalizeScore]
  refine ⟨⟨?_, ?_⟩, ?_, ?_⟩ <;> nlinarith

/-- C6 witness: instantiation at equal weights 1/2 and concrete stats. -/
theorem c6_witness :
    0 ≤ (1 : ℚ)/2 ∧ 0 ≤ (1 : ℚ)/2 ∧ (1 : ℚ)/2 + 1/2 = 1
    ∧ (0 ≤ (predict_batch_row ⟨0, 0, 1⟩ ⟨0, 0, 1⟩ (1/2) (1/2) 7 (-3)).ensemble_score
      ∧ (predict_batch_row ⟨0, 0, 1⟩ ⟨0, 0, 1⟩ (1/2) (1/2) 7 (-3)).ensemble_score ≤ 1)
    ∧ (0 ≤ (score_records_row ⟨0, 0, 1⟩ ⟨0, 0, 1⟩ (1/2) (1/2) 7 (-3)).ensemble_score
      ∧ (score_records_row ⟨0, 0, 1⟩ ⟨0, 0, 1⟩ (1/2) (1/2) 7 (-3)).ensemble_score ≤ 1) :=
  ⟨by norm_num, by norm_num, by norm_num,
   (c6_ensemble_score_in_unit_interval ⟨0, 0, 1⟩ ⟨0, 0, 1⟩ (1/2) (1/2) 7 (-3)
      (by norm_num) (by norm_num) (by norm_num)).1,
   (c6_ensemble_score_in_unit_interval ⟨0, 0, 1⟩ ⟨0, 0, 1⟩ (1/2) (1/2) 7 (-3)
      (by norm_num) (by norm_num) (by norm_num)).2⟩

/-- C9: when a model's training score stats are degenerate (min = max), the
normalization denominator equals the epsilon guard, is nonzero, and the
normalized score is still the well-defined clipped value `(s - min)/EPS`. -/
theorem c9_epsilon_guard (m : ModelMeta) (s : ℚ)
    (h : m.statsMin = m.statsMax) :
    m.statsMax - m.statsMin + EPS = EPS
    ∧ ¬ m.statsMax - m.statsMin + EPS = 0
    ∧ normalizeScore s m.statsMin m.statsMax
        = npClip01 ((s - m.statsMin) / EPS) := by
  rw [h]
  refine ⟨by ring, by norm_num [EPS], ?_⟩
  simp [normalizeScore, sub_self, zero_add]

/-- C9 witness: degenerate stats min = max = 5. -/
theorem c9_witness :
    (⟨0, 5, 5⟩ : ModelMeta).statsMin = (⟨0, 5, 5⟩ : ModelMeta).statsMax
    ∧ ((⟨0, 5, 5⟩ : ModelMeta).statsMax - (⟨0, 5, 5⟩ : ModelMeta).statsMin + EPS = EPS
      ∧ ¬ (⟨0, 5, 5⟩ : ModelMeta).statsMax - (⟨0, 5, 5⟩ : ModelMeta).statsMin + EPS = 0
      ∧ normalizeScore 7 (⟨0, 5, 5⟩ : ModelMeta).statsMin (⟨0, 5, 5⟩ : ModelMeta).statsMax
          = npClip01 ((7 - (⟨0, 5, 5⟩ : ModelMeta).statsMin) / EPS)) :=
  ⟨rfl, c9_epsilon_guard ⟨0, 5, 5⟩ 7 rfl⟩

/-! ## Claims about the feature pipeline -/

/-- C4: with the spec-required `ignore` handling of unknown categories, a
categorical value outside the fit-time vocabulary never makes the one-hot
transform raise: it encodes to the all-zero indicator vector, identical to
the vector of any other value with no matching known category. -/
theorem c4_unknown_category_all_zero (vocab : List String) (v w : String)
    (hv : ¬ v ∈ vocab) (hw : ¬ w ∈ vocab) :
    oneHotEncode configCategoricalUnknown vocab v
        = .ok (List.replicate vocab.length 0)
    ∧ oneHotEncode configCategoricalUnknown vocab v
        = oneHotEncode configCategoricalUnknown vocab w := by
  have h1 := map_indicator_of_not_mem vocab v hv
  have h2 := map_indicator_of_not_mem vocab w hw
  simp [oneHotEncode, configCategoricalUnknown, h1, h2]

/-- C4 witness: vocabulary {voice, chat}, unseen values email and sms. -/
theorem c4_witness :
    ¬ "email" ∈ ["voice", "chat"]
    ∧ ¬ "sms" ∈ ["voice", "chat"]
    ∧ oneHotEncode configCategoricalUnknown ["voice", "chat"] "email"
        = .ok (List.replicate (["voice", "chat"] : List String).length 0)
    ∧ oneHotEncode configCategoricalUnknown ["voice", "chat"] "email"
        = oneHotEncode configCategoricalUnknown ["voice", "chat"] "sms" :=
  ⟨by decide, by decide,
   (c4_unknown_category_all_zero ["voice", "chat"] "email" "sms"
     (by decide) (by decide)).1,
   (c4_unknown_category_all_zero ["voice", "chat"] "email" "sms"
     (by decide) (by decide)).2⟩

/-! ## Claims about threshold calibration (C7) -/

theorem foldl_min_mem (a : ℚ) (l : List ℚ) : l.foldl min a ∈ a :: l := by
  induction l generalizing a with
  | nil => simp
  | cons b t ih =>
    simp only [List.foldl_cons]
    rcases List.mem_cons.mp (ih (min a b)) with h1 | h1
    · rw [List.mem_cons, List.mem_cons]
      rcases min_choice a b with hm | hm
      · exact Or.inl (h1.trans hm)
      · exact Or.inr (Or.inl (h1.trans hm))
    · exact List.mem_cons_of_mem _ (List.mem_cons_of_mem _ h1)

theorem foldl_min_le (a : ℚ) (l : List ℚ) : ∀ x ∈ a :: l, l.foldl min a ≤ x := by
  induction l generalizing a with
  | nil =>
    intro x hx
    rw [List.mem_singleton] at hx
    subst hx
    simp
  | cons b t ih =>
    intro x hx
    simp only [List.foldl_cons]
    have hhead : t.foldl min (min a b) ≤ min a b :=
      ih (min a b) (min a b) (List.mem_cons_self _ _)
    rcases List.mem_cons.mp hx with rfl | h1
    · exact le_trans hhead (min_le_left _ _)
    · rcases List.mem_cons.mp h1 with rfl | h2
      · exact le_trans hhead (min_le_right _ _)
      · exact ih (min a b) x (List.mem_cons_of_mem _ h2)

theorem foldl_max_mem (a : ℚ) (l : List ℚ) : l.foldl max a ∈ a :: l := by
  induction l generalizing a with
  | nil => simp
  | cons b t ih =>
    simp only [List.foldl_cons]
    rcases List.mem_cons.mp (ih (max a b)) with h1 | h1
    · rw [List.mem_cons, List.mem_cons]
      rcases max_choice a b with hm | hm
      · exact Or.inl (h1.trans hm)
      · exact Or.inr (Or.inl (h1.trans hm))
    · exact List.mem_cons_of_mem _ (List.mem_cons_of_mem _ h1)

theorem foldl_max_ge (a : ℚ) (l : List ℚ) : ∀ x ∈ a :: l, x ≤ l.foldl max a := by
  induction l generalizing a with
  | nil =>
    intro x hx
    rw [List.mem_singleton] at hx
    subst hx
    simp
  | cons b t ih =>
    intro x hx
    simp only [List.foldl_cons]
    have hhead : max a b ≤ t.foldl max (max a b) :=
      ih (max a b) (max a b) (List.mem_cons_self _ _)
    rcases List.mem_cons.mp hx with rfl | h1
    · exact le_trans (le_max_left _ _) hhead
    · rcases List.mem_cons.mp h1 with rfl | h2
      · exact le_trans (le_max_right _ _) hhead
      · exact ih (max a b) x (List.mem_cons_of_mem _ h2)

theorem npMin_mem (l : List ℚ) (h : ¬ l = []) : npMin l ∈ l := by
  cases l with
  | nil => exact absurd rfl h
  | cons a t => exact foldl_min_mem a t

theorem npMin_le (l : List ℚ) : ∀ x ∈ l, npMin l ≤ x := by
  cases l with
  | nil => intro x hx; simp at hx
  | cons a t => exact foldl_min_le a t

theorem npMax_mem (l : List ℚ) (h : ¬ l = []) : npMax l ∈ l := by
  cases l with
  | nil => exact absurd rfl h
  | cons a t => exact foldl_max_mem a t

theorem npMax_ge (l : List ℚ) : ∀ x ∈ l, x ≤ npMax l := by
  cases l with
  | nil => intro x hx; simp at hx
  | cons a t => exact foldl_max_ge a t

theorem getD_zero_mem (m : List ℚ) (h : ¬ m = []) : m.getD 0 0 ∈ m := by
  cases m with
  | nil => exact absurd rfl h
  | cons a t => simp

theorem sorted_getD_zero_le (m : List ℚ) (hs : List.Sorted (· ≤ ·) m) :
    ∀ x ∈ m, m.getD 0 0 ≤ x := by
  cases m with
  | nil => intro x hx; simp at hx
  | cons a t =>
    intro x hx
    rcases List.mem_cons.mp hx with rfl | h1
    · simp
    · simpa using List.rel_of_sorted_cons hs x h1

theorem getD_last_mem : ∀ (m : List ℚ), ¬ m = [] → m.getD (m.length - 1) 0 ∈ m
  | [], h => absurd rfl h
  | [_], _ => by simp
  | a :: b :: t, _ => by
    have ih := getD_last_mem (b :: t) (by simp)
    simp only [List.length_cons] at ih ⊢
    rw [Nat.add_sub_cancel] at ih ⊢
    rw [List.getD_cons_succ]
    exact List.mem_cons_of_mem _ ih

theorem sorted_le_getD_last : ∀ (m : List ℚ), List.Sorted (· ≤ ·) m →
    ∀ x ∈ m, x ≤ m.getD (m.length - 1) 0
  | [], _, x, hx => by simp at hx
  | [a], _, x, hx => by
    rw [List.mem_singleton] at hx
    subst hx
    simp
  | a :: b :: t, hs, x, hx => by
    have htail := sorted_le_getD_last (b :: t) hs.of_cons
    have hmem := getD_last_mem (b :: t) (by simp)
    simp only [List.length_cons] at htail hmem ⊢
    rw [Nat.add_sub_cancel] at htail hmem ⊢
    rw [List.getD_cons_succ]
    rcases List.mem_cons.mp hx with rfl | h1
    · exact List.rel_of_sorted_cons hs _ hmem
    · exact htail x h1

theorem insertionSort_ne_nil (l : List ℚ) (h : ¬ l = []) :
    ¬ List.insertionSort (· ≤ ·) l = [] := by
  intro h0
  apply h
  have := List.length_insertionSort (· ≤ ·) l
  rw [h0] at this
  exact List.length_eq_zero.mp this.symm

theorem sorted_head_eq_npMin (l : List ℚ) (h : ¬ l = []) :
    (List.insertionSort (· ≤ ·) l).getD 0 0 = npMin l := by
  have hperm : (List.insertionSort (· ≤ ·) l).Perm l := List.perm_insertionSort _ l
  have hs : List.Sorted (· ≤ ·) (List.insertionSort (· ≤ ·) l) :=
    List.sorted_insertionSort _ l
  have hne := insertionSort_ne_nil l h
  refine le_antisymm ?_ ?_
  · exact sorted_getD_zero_le _ hs _ (hperm.mem_iff.mpr (npMin_mem l h))
  · exact npMin_le l _ (hperm.mem_iff.mp (getD_zero_mem _ hne))

theorem sorted_last_eq_npMax (l : List ℚ) (h : ¬ l = []) :
    (List.insertionSort (· ≤ ·) l).getD (l.length - 1) 0 = npMax l := by
  have hperm : (List.insertionSort (· ≤ ·) l).Perm l := List.perm_insertionSort _ l
  have hs : List.Sorted (· ≤ ·) (List.insertionSort (· ≤ ·) l) :=
    List.sorted_insertionSort _ l
  have hne := insertionSort_ne_nil l h
  rw [show l.length = (List.insertionSort (· ≤ ·) l).length from
    (List.length_insertionSort (· ≤ ·) l).symm]
  refine le_antisymm ?_ ?_
  · exact npMax_ge l _ (hperm.mem_iff.mp (getD_last_mem _ hne))
  · exact sorted_le_getD_last _ hs _ (hperm.mem_iff.mpr (npMax_mem l h))

/-- C7: the calibrated threshold `np.percentile(train_scores, p)` (linear
interpolation between order statistics) at percentile 100 equals the maximum
training score, and at percentile 0 the minimum, for every non-empty score
list. -/
theorem c7_percentile_endpoints (l : List ℚ) (h : ¬ l = []) :
    npPercentile l 100 = npMax l ∧ npPercentile l 0 = npMin l := by
  have hn : 1 ≤ l.length := List.length_pos.mpr h
  constructor
  · have hrank : (100 : ℚ) * ((l.length : ℚ) - 1) / 100
        = ((l.length - 1 : ℕ) : ℚ) := by
      rw [mul_div_cancel_left₀ _ (by norm_num : (100 : ℚ) ≠ 0)]
      rw [Nat.cast_sub hn, Nat.cast_one]
    simp only [npPercentile, hrank, Int.floor_natCast, Int.toNat_natCast,
      sub_self, zero_mul, add_zero]
    exact sorted_last_eq_npMax l h
  · simp only [npPercentile, zero_mul, zero_div, Int.floor_zero, Int.toNat_zero,
      Nat.cast_zero, sub_zero, add_zero]
    exact sorted_head_eq_npMin l h

/-- C7 witness: the concrete score list [3, 1, 2]. -/
theorem c7_witness :
    ¬ ([3, 1, 2] : List ℚ) = []
    ∧ npPercentile [3, 1, 2] 100 = npMax [3, 1, 2]
    ∧ npPercentile [3, 1, 2] 0 = npMin [3, 1, 2] :=
  ⟨by simp,
   (c7_percentile_endpoints [3, 1, 2] (by simp)).1,
   (c7_percentile_endpoints [3, 1, 2] (by simp)).2⟩

/-! ## Claims about the batch-prediction CLI (C10) -/

theorem predict_batch_missing (arts : Artifacts) (ifMeta lofMeta : ModelMeta)
    (wIf wLof : ℚ) (recs : List (ℚ × ℚ))
    (h : ¬ ("iforest" ∈ arts.models.map Prod.fst
            ∧ "lof" ∈ arts.models.map Prod.fst)) :
    predict_batch arts ifMeta lofMeta wIf wLof recs
      = .error "Required models not available" := by
  simp only [predict_batch]
  rw [if_neg h]

theorem not_both_in_singleton (m : String) :
    ¬ ("iforest" ∈ [m] ∧ "lof" ∈ [m]) := by
  rintro ⟨h1, h2⟩
  rw [List.mem_singleton] at h1 h2
  exact absurd (h2.trans h1.symm) (by decide)

/-- C10: `predict_batch` unconditionally requires both the iforest and the
lof model among the loaded artifacts and errors before any scoring when
either is absent; and since a single-model CLI invocation loads only that
one model, every such invocation fails rather than returning scores. -/
theorem c10_single_model_predict_fails :
    (∀ (arts : Artifacts) (ifMeta lofMeta : ModelMeta) (wIf wLof : ℚ)
        (recs : List (ℚ × ℚ)),
      ¬ ("iforest" ∈ arts.models.map Prod.fst
          ∧ "lof" ∈ arts.models.map Prod.fst) →
      predict_batch arts ifMeta lofMeta wIf wLof recs
        = .error "Required models not available")
    ∧ (∀ (cfgModels : List String) (src : ArtifactSource) (argModel : String)
        (ifMeta lofMeta : ModelMeta) (wIf wLof : ℚ) (recs : List (ℚ × ℚ)),
      ¬ argModel = "ensemble" →
      ∀ rows, ¬ predict_main cfgModels src argModel ifMeta lofMeta wIf wLof recs
        = .ok rows) := by
  constructor
  · exact fun arts ifMeta lofMeta wIf wLof recs h =>
      predict_batch_missing arts ifMeta lofMeta wIf wLof recs h
  · intro cfg src m ifMeta lofMeta wIf wLof recs hm rows
    simp only [predict_main, if_neg hm]
    cases hsrc : src.preprocessorFile with
    | none => simp [load_artifacts, hsrc]
    | some p =>
      by_cases hmem : m ∈ cfg
      · simp only [load_artifacts, hsrc, if_pos hmem]
        cases hml : src.modelFiles.lookup m with
        | none => simp [loadModelMeta, hml]
        | some mv =>
          cases hmd : src.metaFiles.lookup m with
          | none => simp [loadModelMeta, hml, hmd]
          | some dv =>
            simp only [loadModelMeta, hml, hmd]
            have hnb : ¬ ("iforest" ∈ ([(m, mv)] : List (String × ℕ)).map Prod.fst
                ∧ "lof" ∈ ([(m, mv)] : List (String × ℕ)).map Prod.fst) := by
              simpa using not_both_in_singleton m
            rw [predict_batch_missing _ ifMeta lofMeta wIf wLof recs hnb]
            simp
      · simp [load_artifacts, hsrc, if_neg hmem]

/-- C10 witness: invoking the CLI with `--model iforest` on a fully stocked
artifact store still fails. -/
theorem c10_witness :
    ¬ "iforest" = "ensemble"
    ∧ ¬ predict_main ["iforest", "lof"]
          ⟨some 1, [("iforest", 2), ("lof", 3)], [("iforest", 4), ("lof", 5)]⟩
          "iforest" ⟨0, 0, 1⟩ ⟨0, 0, 1⟩ (1/2) (1/2) [(1, 1)]
        = .ok [predict_batch_row ⟨0, 0, 1⟩ ⟨0, 0, 1⟩ (1/2) (1/2) 1 1] :=
  ⟨by decide,
   c10_single_model_predict_fails.2 ["iforest", "lof"]
     ⟨some 1, [("iforest", 2), ("lof", 3)], [("iforest", 4), ("lof", 5)]⟩
     "iforest" ⟨0, 0, 1⟩ ⟨0, 0, 1⟩ (1/2) (1/2) [(1, 1)] (by decide)
     [predict_batch_row ⟨0, 0, 1⟩ ⟨0, 0, 1⟩ (1/2) (1/2) 1 1]⟩

/-! ## Claims about the model registry (C1, C2) -/

theorem lookup_dictSet_self (d : List (String × ℕ)) (k : String) (v : ℕ) :
    (dictSet d k v).lookup k = some v := by
  induction d with
  | nil => simp [dictSet]
  | cons p rest ih =>
    obtain ⟨k2, v2⟩ := p
    by_cases h : k2 = k
    · subst h
      simp [dictSet]
    · have hb : (k == k2) = false := beq_eq_false_iff_ne.mpr (Ne.symm h)
      simp [dictSet, h, List.lookup, hb, ih]

theorem lookup_dictSet_ne (d : List (String × ℕ)) (k k2 : String) (v : ℕ)
    (h : ¬ k2 = k) :
    (dictSet d k v).lookup k2 = d.lookup k2 := by
  induction d with
  | nil =>
    have hb : (k2 == k) = false := beq_eq_false_iff_ne.mpr h
    simp [dictSet, List.lookup, hb]
  | cons p rest ih =>
    obtain ⟨k3, v3⟩ := p
    by_cases h3 : k3 = k
    · subst h3
      have hb : (k2 == k3) = false := beq_eq_false_iff_ne.mpr h
      simp [dictSet, List.lookup, hb]
    · by_cases h23 : k2 = k3
      · subst h23
        simp [dictSet, h3, List.lookup]
      · have hb : (k2 == k3) = false := beq_eq_false_iff_ne.mpr h23
        simp [dictSet, h3, List.lookup, hb, ih]

theorem loadModelsTrace_ok_final (src : ArtifactSource) :
    ∀ (names : List String) (t c : ℕ) (s : ModelState),
    (loadModelsTrace src names t c s).2 = true →
    ((loadModelsTrace src names t c s).1.getLastD s).preprocessor = s.preprocessor
    ∧ ((loadModelsTrace src names t c s).1.getLastD s).loaded_at = some t
    ∧ ((loadModelsTrace src names t c s).1.getLastD s).config = some c
    ∧ ∀ k : String,
        ((loadModelsTrace src names t c s).1.getLastD s).models.lookup k
          = (if k ∈ names then src.modelFiles.lookup k else s.models.lookup k)
        ∧ ((loadModelsTrace src names t c s).1.getLastD s).metadata.lookup k
          = (if k ∈ names then src.metaFiles.lookup k else s.metadata.lookup k) := by
  intro names
  induction names with
  | nil =>
    intro t c s _
    refine ⟨rfl, rfl, rfl, fun k => ?_⟩
    simp [loadModelsTrace, List.getLastD]
  | cons n rest ih =>
    intro t c s hok
    cases hml : src.modelFiles.lookup n with
    | none => simp [loadModelsTrace, hml] at hok
    | some mv =>
      cases hmd : src.metaFiles.lookup n with
      | none => simp [loadModelsTrace, hml, hmd] at hok
      | some dv =>
        simp only [loadModelsTrace, hml, hmd] at hok ⊢
        simp only [List.getLastD_cons]
        obtain ⟨h1, h2, h3, h4⟩ := ih t c _ hok
        refine ⟨h1, h2, h3, fun k => ?_⟩
        obtain ⟨hm, hd⟩ := h4 k
        constructor
        · rw [hm]
          by_cases hkr : k ∈ rest
          · simp [hkr]
          · by_cases hkn : k = n
            · subst hkn
              simp [hkr, lookup_dictSet_self, hml]
            · simp [hkr, hkn, lookup_dictSet_ne _ _ _ _ hkn]
        · rw [hd]
          by_cases hkr : k ∈ rest
          · simp [hkr]
          · by_cases hkn : k = n
            · subst hkn
              simp [hkr, lookup_dictSet_self, hmd]
            · simp [hkr, hkn, lookup_dictSet_ne _ _ _ _ hkn]

theorem loadModelsTrace_fail_keeps_stamp (src : ArtifactSource) :
    ∀ (names : List String) (t c : ℕ) (s : ModelState),
    (loadModelsTrace src names t c s).2 = false →
    ((loadModelsTrace src names t c s).1.getLastD s).loaded_at = s.loaded_at
    ∧ ((loadModelsTrace src names t c s).1.getLastD s).config = s.config := by
  intro names
  induction names with
  | nil =>
    intro t c s h
    simp [loadModelsTrace] at h
  | cons n rest ih =>
    intro t c s h
    cases hml : src.modelFiles.lookup n with
    | none => simp [loadModelsTrace, hml, List.getLastD]
    | some mv =>
      cases hmd : src.metaFiles.lookup n with
      | none => simp [loadModelsTrace, hml, hmd, List.getLastD]
      | some dv =>
        simp only [loadModelsTrace, hml, hmd] at h ⊢
        simp only [List.getLastD_cons]
        exact ih t c _ h

/-- C1 (amended): a Reload does not install a snapshot atomically — it writes
the live serving state one assignment at a time. The state right after the
first write holds the NEW preprocessor together with all OLD models and
metadata (first conjunct), so a Score call interleaved there observes a mix;
only once the Reload has completed does the registry hold exactly the newly
loaded preprocessor, models, metadata, load timestamp and config
(remaining conjuncts). -/
theorem c1_reload_stepwise_install (src : ArtifactSource) (names : List String)
    (t c : ℕ) (s : ModelState)
    (hok : (load_model_artifacts src names t c s).2 = true) :
    (load_model_artifacts src names t c s).1.getD 0 s
        = { s with preprocessor := src.preprocessorFile }
    ∧ (stateAfterLoad src names t c s).preprocessor = src.preprocessorFile
    ∧ (stateAfterLoad src names t c s).loaded_at = some t
    ∧ (stateAfterLoad src names t c s).config = some c
    ∧ ∀ k : String, k ∈ names →
        (stateAfterLoad src names t c s).models.lookup k
            = src.modelFiles.lookup k
        ∧ (stateAfterLoad src names t c s).metadata.lookup k
            = src.metaFiles.lookup k := by
  cases hsrc : src.preprocessorFile with
  | none => simp [load_model_artifacts, hsrc] at hok
  | some p =>
    have hok2 : (loadModelsTrace src names t c
        { s with preprocessor := some p }).2 = true := by
      simpa [load_model_artifacts, hsrc] using hok
    obtain ⟨h1, h2, h3, h4⟩ := loadModelsTrace_ok_final src names t c _ hok2
    have hstate : stateAfterLoad src names t c s
        = (loadModelsTrace src names t c
            { s with preprocessor := some p }).1.getLastD
          { s with preprocessor := some p } := by
      simp only [stateAfterLoad, load_model_artifacts, hsrc]
      rw [List.getLastD_cons]
    refine ⟨by simp [load_model_artifacts, hsrc], ?_, ?_, ?_, fun k hk => ?_⟩
    · rw [hstate, h1]
    · rw [hstate, h2]
    · rw [hstate, h3]
    · obtain ⟨hm, hd⟩ := h4 k
      rw [hstate]
      rw [hm, hd]
      simp [hk]

/-- C2 (amended): a failed Load or Reload is not atomic roll-back: only the
`loaded_at` and `config` fields are guaranteed unchanged, and the whole state
is unchanged only when the very first artifact (the preprocessor) fails to
load; artifacts assigned before the failing one stay installed (see the
counterexample for a concrete mixed leftover state). -/
theorem c2_failed_load_effects (src : ArtifactSource) (names : List String)
    (t c : ℕ) (s : ModelState)
    (hfail : (load_model_artifacts src names t c s).2 = false) :
    (stateAfterLoad src names t c s).loaded_at = s.loaded_at
    ∧ (stateAfterLoad src names t c s).config = s.config
    ∧ (src.preprocessorFile = none → stateAfterLoad src names t c s = s) := by
  cases hsrc : src.preprocessorFile with
  | none =>
    refine ⟨?_, ?_, fun _ => ?_⟩ <;>
      simp [stateAfterLoad, load_model_artifacts, hsrc, List.getLastD]
  | some p =>
    have hfail2 : (loadModelsTrace src names t c
        { s with preprocessor := some p }).2 = false := by
      simpa [load_model_artifacts, hsrc] using hfail
    obtain ⟨h1, h2⟩ := loadModelsTrace_fail_keeps_stamp src names t c _ hfail2
    have hstate : stateAfterLoad src names t c s
        = (loadModelsTrace src names t c
            { s with preprocessor := some p }).1.getLastD
          { s with preprocessor := some p } := by
      simp only [stateAfterLoad, load_model_artifacts, hsrc]
      rw [List.getLastD_cons]
    refine ⟨by rw [hstate, h1], by rw [hstate, h2], fun hc => ?_⟩
    exact absurd hc (by simp)

/-! Concrete reload scenario: snapshot A fully loaded, then a reload from a
second artifact store B (and a broken store missing the lof model file). -/

/-- Artifact store of the first load. -/
def srcA : ArtifactSource :=
  { preprocessorFile := some 10,
    modelFiles := [("iforest", 11), ("lof", 12)],
    metaFiles := [("iforest", 13), ("lof", 14)] }

/-- Artifact store of the reload: every artifact replaced. -/
def srcB : ArtifactSource :=
  { preprocessorFile := some 20,
    modelFiles := [("iforest", 21), ("lof", 22)],
    metaFiles := [("iforest", 23), ("lof", 24)] }

/-- Artifact store with the lof model file missing. -/
def srcBad : ArtifactSource :=
  { preprocessorFile := some 20,
    modelFiles := [("iforest", 21)],
    metaFiles := [("iforest", 23), ("lof", 24)] }

/-- The configured model names (config["models"], both scoring paths). -/
def modelNames : List String := ["iforest", "lof"]

/-- Serving state after the first successful load. -/
def stateA : ModelState := stateAfterLoad srcA modelNames 1 1 initialState

/-- Serving state after a completed reload from srcB. -/
def stateB : ModelState := stateAfterLoad srcB modelNames 2 2 stateA

/-- C1 counterexample: during a reload from srcB over the serving state of
srcA, some intermediate registry state is visible whose Score-relevant view
(preprocessor, models, metadata) matches neither the old snapshot nor the new
one — the mix the claim says can never be observed. -/
theorem c1_counterexample :
    ¬ (∀ st ∈ (load_model_artifacts srcB modelNames 2 2 stateA).1,
        snapshotView st = snapshotView stateA
        ∨ snapshotView st = snapshotView stateB) := by
  decide

/-- C1 witness: the concrete completed reload from srcB. -/
theorem c1_witness :
    (load_model_artifacts srcB modelNames 2 2 stateA).2 = true
    ∧ (load_model_artifacts srcB modelNames 2 2 stateA).1.getD 0 stateA
        = { stateA with preprocessor := srcB.preprocessorFile }
    ∧ (stateAfterLoad srcB modelNames 2 2 stateA).preprocessor
        = srcB.preprocessorFile
    ∧ (stateAfterLoad srcB modelNames 2 2 stateA).models.lookup "iforest"
        = srcB.modelFiles.lookup "iforest"
    ∧ (stateAfterLoad srcB modelNames 2 2 stateA).metadata.lookup "lof"
        = srcB.metaFiles.lookup "lof" :=
  ⟨by decide,
   (c1_reload_stepwise_install srcB modelNames 2 2 stateA (by decide)).1,
   (c1_reload_stepwise_install srcB modelNames 2 2 stateA (by decide)).2.1,
   ((c1_reload_stepwise_install srcB modelNames 2 2 stateA (by decide)).2.2.2.2
     "iforest" (by decide)).1,
   ((c1_reload_stepwise_install srcB modelNames 2 2 stateA (by decide)).2.2.2.2
     "lof" (by decide)).2⟩

/-- C2 counterexample: a reload that fails because the lof model file is
missing does NOT leave the previous serving state intact: the new
preprocessor and the new iforest model are already installed, so subsequent
Score calls observe a state different from the pre-reload snapshot. -/
theorem c2_counterexample :
    (load_model_artifacts srcBad modelNames 2 2 stateA).2 = false
    ∧ ¬ snapshotView (stateAfterLoad srcBad modelNames 2 2 stateA)
        = snapshotView stateA
    ∧ ¬ stateAfterLoad srcBad modelNames 2 2 stateA = stateA := by
  refine ⟨by decide, by decide, by decide⟩

/-- C2 witness: a load whose very first artifact (the preprocessor) is
missing fails with the state fully unchanged. -/
theorem c2_witness :
    (load_model_artifacts ⟨none, [], []⟩ modelNames 2 2 stateA).2 = false
    ∧ (stateAfterLoad ⟨none, [], []⟩ modelNames 2 2 stateA).loaded_at
        = stateA.loaded_at
    ∧ (stateAfterLoad ⟨none, [], []⟩ modelNames 2 2 stateA).config
        = stateA.config
    ∧ stateAfterLoad ⟨none, [], []⟩ modelNames 2 2 stateA = stateA :=
  ⟨by decide,
   (c2_failed_load_effects ⟨none, [], []⟩ modelNames 2 2 stateA (by decide)).1,
   (c2_failed_load_effects ⟨none, [], []⟩ modelNames 2 2 stateA (by decide)).2.1,
   (c2_failed_load_effects ⟨none, [], []⟩ modelNames 2 2 stateA (by decide)).2.2 rfl⟩

/-! ## Claims about schema validation (C3) -/

/-- C3 counterexample: feature config numeric=[csat], categorical=[channel],
identifiers=[interaction_id, timestamp]; input table missing the required
column csat. Batch train does fail fast naming csat, but the serving path
classifies the same missing column as an internal failure (HTTP 500), not as
a client-facing validation failure. -/
theorem c3_counterexample :
    validate_schema ["csat"] ["channel"] ["interaction_id", "timestamp"]
        ["interaction_id", "timestamp", "channel"]
      = .error ["csat"]
    ∧ score_endpoint_schema true "both" ["interaction_id", "timestamp"]
        ["interaction_id", "timestamp"] ["csat", "channel"]
        ["interaction_id", "timestamp", "channel"]
      = ServeOutcome.internalError
    ∧ ¬ score_endpoint_schema true "both" ["interaction_id", "timestamp"]
        ["interaction_id", "timestamp"] ["csat", "channel"]
        ["interaction_id", "timestamp", "channel"]
      = ServeOutcome.clientError 400
    ∧ ¬ score_endpoint_schema true "both" ["interaction_id", "timestamp"]
        ["interaction_id", "timestamp"] ["csat", "channel"]
        ["interaction_id", "timestamp", "channel"]
      = ServeOutcome.clientError 422 :=
  ⟨rfl, rfl, by decide, by decide⟩

/-- C3 (amended): batch train validates the schema before any transformation
and fails naming the missing columns; the serving Score path, however,
performs no schema validation — a fitted column absent from the prepared
features only surfaces when the preprocessor transform fails, which the
endpoint reports as an internal failure (HTTP 500), not a client-facing
validation failure. -/
theorem c3_train_fast_serving_internal
    (numeric categorical ids drops fitted cols : List String)
    (c f sel : String)
    (hc : c ∈ numeric ++ categorical ++ ids) (hcmiss : ¬ c ∈ cols)
    (hf : f ∈ fitted) (hfmiss : ¬ f ∈ prepare_features ids drops cols)
    (hsel : sel ∈ ["iforest", "lof", "both"]) :
    (∃ missing, train_schema_check numeric categorical ids cols
        = .error missing ∧ c ∈ missing)
    ∧ score_endpoint_schema true sel ids drops fitted cols
        = ServeOutcome.internalError := by
  have hcmem : c ∈ ((numeric ++ categorical ++ ids).filter
      (fun x => ¬ x ∈ cols)).dedup :=
    List.mem_dedup.mpr (List.mem_filter.mpr ⟨hc, by simpa using hcmiss⟩)
  constructor
  · refine ⟨((numeric ++ categorical ++ ids).filter
        (fun x => ¬ x ∈ cols)).dedup, ?_, hcmem⟩
    simp only [train_schema_check, validate_schema]
    rw [if_neg]
    intro h0
    rw [h0] at hcmem
    simp at hcmem
  · have htc : transform_check fitted (prepare_features ids drops cols)
        = .error "columns are missing" := by
      simp only [transform_check]
      rw [if_neg]
      intro hall
      rw [List.all_eq_true] at hall
      exact hfmiss (by simpa using hall f hf)
    simp [score_endpoint_schema, hsel, htc]

/-- C3 witness: the concrete configuration and table of the counterexample. -/
theorem c3_witness :
    "csat" ∈ (["csat"] : List String) ++ ["channel"]
        ++ ["interaction_id", "timestamp"]
    ∧ ¬ "csat" ∈ (["interaction_id", "timestamp", "channel"] : List String)
    ∧ "csat" ∈ (["csat", "channel"] : List String)
    ∧ ¬ "csat" ∈ prepare_features ["interaction_id", "timestamp"]
        ["interaction_id", "timestamp"] ["interaction_id", "timestamp", "channel"]
    ∧ "both" ∈ (["iforest", "lof", "both"] : List String)
    ∧ (∃ missing, train_schema_check ["csat"] ["channel"]
          ["interaction_id", "timestamp"]
          ["interaction_id", "timestamp", "channel"]
        = .error missing ∧ "csat" ∈ missing)
    ∧ score_endpoint_schema true "both" ["interaction_id", "timestamp"]
        ["interaction_id", "timestamp"] ["csat", "channel"]
        ["interaction_id", "timestamp", "channel"]
      = ServeOutcome.internalError :=
  ⟨by decide, by decide, by decide, by decide, by decide,
   (c3_train_fast_serving_internal ["csat"] ["channel"]
     ["interaction_id", "timestamp"] ["interaction_id", "timestamp"]
     ["csat", "channel"] ["interaction_id", "timestamp", "channel"]
     "csat" "csat" "both" (by decide) (by decide) (by decide) (by decide)
     (by decide)).1,
   (c3_train_fast_serving_internal ["csat"] ["channel"]
     ["interaction_id", "timestamp"] ["interaction_id", "timestamp"]
     ["csat", "channel"] ["interaction_id", "timestamp", "channel"]
     "csat" "csat" "both" (by decide) (by decide) (by decide) (by decide)
     (by decide)).2⟩

end CXAD
